import Mathlib

/-!
Verification development for the BookX narrated-explanation pipeline.

The development shallowly embeds the two playback/capture state machines of
the repository:

* `RE` — the HTTP request/response variant
  (`frontend/app/components/ReadingExplanation.js`): an HTML5 main-audio
  element, a Web-Audio Q&A answer source, React state flags
  (`isPlayingMain`, `isPlayingQA`, `isTutorResponding`, `isRecording`),
  the refs `isPlayingQARef` / `shouldResumeAfterQA`, the per-source
  `hasEnded` guard and the 200 ms settle timer scheduled in
  `source.onended`.
* `Mic` — the push-to-talk capture unit
  (`frontend/app/components/MicSpeakingUI.js` and the identical
  `PushToTalk` component): buffer accumulation, the VAD / RMS fallback in
  `stopRecording`, downsampling to 16 kHz and 16-bit PCM WAV encoding.
* `WS` — the streaming (WebSocket) variant of `ReadingExplanation`:
  `audio_chunk` accumulation and `playAccumulatedAudio`, including the
  fact that the `ws.onmessage` handler invokes the `playAccumulatedAudio`
  closure created in the render in which `connectWebSocket` ran, so it
  reads the `audioChunks` state snapshot captured at connect time.

Audio samples are modelled as rationals (normalized floats), byte buffers
as lists of naturals. Event handlers become a `step` function on an
explicit state record; traces are folds over event lists.
-/

namespace RE

/-- State of the `ReadingExplanation` component (HTTP variant): the HTML5
main-audio element (`mainExists`/`mainPaused`/`mainEnded` mirror
`audioRef.current`, its `paused` and `ended` properties), the React state
flags, the two refs, the Q&A buffer source (`qaPlaying` true between
`source.start()` and its end, `hasEnded` the local double-`onended` guard
of the current source) and the number of pending 200 ms settle timers. -/
structure RState where
  mainExists : Bool
  mainPaused : Bool
  mainEnded : Bool
  isPlayingMain : Bool
  isRecording : Bool
  isTutorResponding : Bool
  isPlayingQA : Bool
  isPlayingQARef : Bool
  shouldResumeAfterQA : Bool
  qaPlaying : Bool
  hasEnded : Bool
  pendingTimers : Nat
  deriving Repr, DecidableEq

/-- State right after the explanation audio is loaded into the element:
main audio present and paused, no Q&A activity. -/
def initLoaded : RState :=
  { mainExists := true, mainPaused := true, mainEnded := false
    isPlayingMain := false, isRecording := false, isTutorResponding := false
    isPlayingQA := false, isPlayingQARef := false, shouldResumeAfterQA := false
    qaPlaying := false, hasEnded := false, pendingTimers := 0 }

/-- `audioRef.current.play()` after the wrapping installed on load: the
call is rejected while `isPlayingQARef.current` is set; otherwise the
element starts playing and the `onPlay` handler `handleAudioPlay` runs,
which pauses the element again if `isPlayingQA` is set and otherwise
records `isPlayingMain`. -/
def attemptPlayMain (s : RState) : RState :=
  if s.isPlayingQARef then s
  else if s.isPlayingQA then { s with mainPaused := true }
  else { s with mainPaused := false, mainEnded := false, isPlayingMain := true }

/-- `togglePlayPause`: no-op while `isPlayingQA`; otherwise pauses the
element when `isPlayingMain` and plays it (through the wrapped `play`)
when not. -/
def toggleStep (s : RState) : RState :=
  if !s.mainExists then s
  else if s.isPlayingQA then s
  else if s.isPlayingMain then { s with mainPaused := true, isPlayingMain := false }
  else attemptPlayMain s

/-- `stopAudio`: pauses the element and resets its position. -/
def stopStep (s : RState) : RState :=
  if !s.mainExists then s
  else { s with mainPaused := true, isPlayingMain := false }

/-- The element's `onEnded` handler together with the engine fact that a
finished element is paused and ended. -/
def mainEndedStep (s : RState) : RState :=
  if s.mainPaused then s
  else { s with mainPaused := true, mainEnded := true, isPlayingMain := false }

/-- `startRecording` (the ask button is disabled while `isPlayingQA`):
pauses main audio and resets `shouldResumeAfterQA` only when
`audioRef.current` exists and `isPlayingMain` is set, then marks
recording; `micOk = false` is the `getUserMedia` rejection, whose `catch`
clears `isRecording` and `isTutorResponding` again. -/
def pressAskStep (s : RState) (micOk : Bool) : RState :=
  if s.isPlayingQA then s
  else
    let s1 :=
      if s.mainExists && s.isPlayingMain then
        { s with mainPaused := true, isPlayingMain := false, shouldResumeAfterQA := false }
      else s
    let s2 := { s1 with isRecording := true, isTutorResponding := false }
    if micOk then s2 else { s2 with isRecording := false, isTutorResponding := false }

/-- `stopRecording` → recorder `onstop` → the synchronous prefix of
`sendQARequest`: sets `isTutorResponding`, `isPlayingQA`,
`isPlayingQARef` and — unconditionally — `shouldResumeAfterQA`. -/
def releaseAskStep (s : RState) : RState :=
  if !s.isRecording then s
  else
    { s with isRecording := false, isTutorResponding := true
             isPlayingQA := true, isPlayingQARef := true
             shouldResumeAfterQA := true }

/-- The Q&A response arrives and `playQAAudioFromBase64` decodes and
starts the answer source: `isTutorResponding` is cleared, a fresh
`hasEnded` local is created, the source becomes audible. -/
def qaHttpOkStep (s : RState) : RState :=
  if !s.isTutorResponding then s
  else { s with isTutorResponding := false, qaPlaying := true, hasEnded := false }

/-- The `catch` of `sendQARequest` (HTTP failure): clears all four flags
and resumes main audio whenever the element exists and is paused. -/
def qaHttpErrStep (s : RState) : RState :=
  if !s.isTutorResponding then s
  else
    let s1 := { s with isTutorResponding := false, isPlayingQA := false
                       isPlayingQARef := false, shouldResumeAfterQA := false }
    if s1.mainExists && s1.mainPaused then attemptPlayMain s1 else s1

/-- The `catch` of `playQAAudioFromBase64` (decode failure after the
response arrived): clears `isPlayingQA`/`isPlayingQARef` and, only when
`shouldResumeAfterQA` is set and the element exists and is paused, resumes
main audio and clears the flag. -/
def qaDecodeErrStep (s : RState) : RState :=
  if !s.isTutorResponding then s
  else
    let s1 := { s with isTutorResponding := false, isPlayingQA := false
                       isPlayingQARef := false }
    if s1.shouldResumeAfterQA && s1.mainExists && s1.mainPaused then
      { attemptPlayMain s1 with shouldResumeAfterQA := false }
    else s1

/-- `source.onended` of the Q&A answer source (the event itself means the
engine has stopped producing audible output): guarded by the per-source
`hasEnded` local, the handler clears the Q&A flags and schedules the
200 ms settle timer. The event is ignored when no source was ever
started. -/
def qaEndedStep (s : RState) : RState :=
  if !s.qaPlaying && !s.hasEnded then s
  else
    let s0 := { s with qaPlaying := false }
    if s.hasEnded then s0
    else
      { s0 with hasEnded := true, isPlayingQA := false, isPlayingQARef := false
                pendingTimers := s.pendingTimers + 1 }

/-- One scheduled settle callback runs: if `shouldResumeAfterQA.current`
is set and the element exists, it computes `isPaused` and
`isCurrentlyPlaying = !paused && !ended`, resumes main (through the
wrapped `play`) when `isPaused && !isCurrentlyPlaying`, and clears the
flag in either case. -/
def timerFireStep (s : RState) : RState :=
  if s.pendingTimers = 0 then s
  else
    let s0 := { s with pendingTimers := s.pendingTimers - 1 }
    if s0.shouldResumeAfterQA && s0.mainExists then
      let isPaused := s0.mainPaused
      let isCurrentlyPlaying := !s0.mainPaused && !s0.mainEnded
      let s1 := if isPaused && !isCurrentlyPlaying then attemptPlayMain s0 else s0
      { s1 with shouldResumeAfterQA := false }
    else s0

/-- Events of the `ReadingExplanation` state machine. -/
inductive REvent
  | togglePlayPause
  | stopAudio
  | mainEnded
  | pressAsk (micOk : Bool)
  | releaseAsk
  | qaHttpOk
  | qaHttpErr
  | qaDecodeErr
  | qaEnded
  | timerFire
  deriving Repr, DecidableEq

/-- One event step of the component. -/
def step (s : RState) : REvent → RState
  | .togglePlayPause => toggleStep s
  | .stopAudio => stopStep s
  | .mainEnded => mainEndedStep s
  | .pressAsk ok => pressAskStep s ok
  | .releaseAsk => releaseAskStep s
  | .qaHttpOk => qaHttpOkStep s
  | .qaHttpErr => qaHttpErrStep s
  | .qaDecodeErr => qaDecodeErrStep s
  | .qaEnded => qaEndedStep s
  | .timerFire => timerFireStep s

/-- Run a trace of events. -/
def run (s : RState) (es : List REvent) : RState := es.foldl step s

/-- Main explanation audio is producing audible output. -/
def mainAudible (s : RState) : Bool := s.mainExists && !s.mainPaused

/-- The Q&A answer source is producing audible output. -/
def qaAudible (s : RState) : Bool := s.qaPlaying

end RE

namespace Mic

/-- Sum of squared samples of a buffer. -/
def sumSquares (buf : List ℚ) : ℚ := (buf.map (fun v => v * v)).sum

/-- Modelled from the spec: the `rms` helper lives in
`frontend/app/lib/audio.js`, which is not under `src/`; the spec describes
"a whole-buffer RMS energy check against a fixed threshold (empirically
~0.001 on normalized float samples)". `rmsBelowThreshold buf` decides
`RMS(buf) < 0.001`, written in the squared form
`Σ v² · 10⁶ < length buf` to stay inside the rationals; an empty buffer is
not below threshold (in the source, `NaN < 0.001` is false). -/
def rmsBelowThreshold (buf : List ℚ) : Bool :=
  decide (sumSquares buf * 1000000 < (buf.length : ℚ))

/-- Modelled from the spec: `mergeFloat32` from `frontend/app/lib/audio.js`
is not under `src/`; the spec says `stopCapture` "concatenates buffered
frames in arrival order into one sample buffer". -/
def mergeFloat32 (bufs : List (List ℚ)) : List ℚ := bufs.flatten

/-- Modelled from the spec: `downsampleFloat32` from
`frontend/app/lib/audio.js` is not under `src/`; the spec says the trimmed
buffer is resampled "to a fixed target rate (16 kHz) regardless of the
capture device's native rate". Modelled as index-map decimation:
`out[i] = in[⌊i·inRate/outRate⌋]` with output length
`⌊len·outRate/inRate⌋`; the identity when the rates agree. -/
def downsampleFloat32 (buf : List ℚ) (inRate outRate : Nat) : List ℚ :=
  if inRate = outRate then buf
  else (List.range (buf.length * outRate / inRate)).map
    (fun i => buf.getD (i * inRate / outRate) 0)

/-- A WAV container as handed to the transport: declared sample rate,
declared bits per sample and the PCM data words. -/
structure WavFile where
  sampleRate : Nat
  bitsPerSample : Nat
  data : List Int
  deriving Repr, DecidableEq

/-- A normalized float sample clamped to `[-1, 1]` and scaled to a signed
16-bit PCM word. -/
def toPCM16 (v : ℚ) : Int := Int.floor (max (-1 : ℚ) (min 1 v) * 32767)

/-- Modelled from the spec: `encodeWavPCM16` from
`frontend/app/lib/audio.js` is not under `src/`; the spec says the
resampled samples are encoded "as 16-bit PCM in a standard container
(WAV)". -/
def encodeWavPCM16 (samples : List ℚ) (rate : Nat) : WavFile :=
  { sampleRate := rate, bitsPerSample := 16, data := samples.map toPCM16 }

/-- Result of `await loadVAD()` in `stopRecording`: the module resolved
with a usable `trimBuffer`, resolved without one (`mod` falsy or no
`trimBuffer`), or the load threw. -/
inductive Vad
  | available (trim : List ℚ → List ℚ)
  | unavailable
  | loadFailed

/-- Outcome of `stopRecording`: either the capture is discarded with the
"[discarded: silence]" notice and no payload, or a payload is handed to
`onSend` (the transport toward the Q&A service). -/
inductive CaptureOutcome
  | discardedSilence
  | sent (payload : WavFile)
  deriving Repr, DecidableEq

/-- The capture pipeline of `MicSpeakingUI.stopRecording` (and the
identical `PushToTalk.stopRecording`): merge the accumulated frames; if
the VAD module is usable, trim with it and always send; otherwise (module
unusable or its load threw) run the whole-buffer RMS check and discard as
silence when below threshold, else send the merged buffer untrimmed. The
sent payload is the 16 kHz-downsampled buffer encoded as 16-bit PCM
WAV. -/
def stopRecording (vad : Vad) (buffers : List (List ℚ)) (inputRate : Nat) :
    CaptureOutcome :=
  let merged := mergeFloat32 buffers
  match vad with
  | .available trim =>
      CaptureOutcome.sent
        (encodeWavPCM16 (downsampleFloat32 (trim merged) inputRate 16000) 16000)
  | .unavailable =>
      if rmsBelowThreshold merged then CaptureOutcome.discardedSilence
      else
        CaptureOutcome.sent
          (encodeWavPCM16 (downsampleFloat32 merged inputRate 16000) 16000)
  | .loadFailed =>
      if rmsBelowThreshold merged then CaptureOutcome.discardedSilence
      else
        CaptureOutcome.sent
          (encodeWavPCM16 (downsampleFloat32 merged inputRate 16000) 16000)

/-- State of the `MicSpeakingUI` component that `startRecording`
touches. -/
structure MicState where
  connected : Bool
  isRecording : Bool
  buffers : List (List ℚ)
  warnings : List String
  deriving Repr, DecidableEq

/-- `MicSpeakingUI.startRecording`: warns when not connected; on a
successful `getUserMedia` resets the buffers and marks recording; when
`getUserMedia` rejects (`micOk = false`), the `catch` only emits the
"[microphone error]" warning — no other field changes. -/
def micStartRecording (s : MicState) (micOk : Bool) : MicState :=
  if !s.connected then
    { s with warnings := s.warnings ++ ["[not connected] click Connect first"] }
  else if micOk then { s with buffers := [], isRecording := true }
  else { s with warnings := s.warnings ++ ["[microphone error]"] }

end Mic

namespace WS

/-- State of the streaming `ReadingExplanation` variant around audio-chunk
accumulation. `chunks` is the current `audioChunks` React store (updated
through functional `setAudioChunks` calls, hence always current), while
`snapshotChunks` is the `audioChunks` binding captured by the
`playAccumulatedAudio` closure that `ws.onmessage` references — fixed at
the render in which `connectWebSocket` installed the handler. `played` is
the byte buffer handed to `decodeAudioData`, if any. -/
structure WsState where
  chunks : List (List Nat)
  snapshotChunks : List (List Nat)
  isStreamingAudio : Bool
  isPlaying : Bool
  played : Option (List Nat)
  deriving Repr, DecidableEq

/-- Installing the socket handlers: the `onmessage` closure captures the
`audioChunks` value of the current render. -/
def connect (chunks0 : List (List Nat)) : WsState :=
  { chunks := chunks0, snapshotChunks := chunks0
    isStreamingAudio := false, isPlaying := false, played := none }

/-- `playAccumulatedAudio` as invoked from `ws.onmessage`: it reads the
captured `audioChunks` binding, returns when that is empty, and otherwise
concatenates its chunks in order into the buffer handed to
`decodeAudioData`. -/
def playAccumulatedAudio (s : WsState) : WsState :=
  if s.snapshotChunks.length = 0 then s
  else { s with played := some s.snapshotChunks.flatten }

/-- The streaming messages relevant to audio accumulation. -/
inductive WsMsg
  | explanationStart
  | audioChunk (bytes : List Nat)
  | explanationComplete
  deriving Repr, DecidableEq

/-- The `ws.onmessage` dispatch for the audio-accumulation messages:
`explanation_start` resets the store, `audio_chunk` appends the decoded
bytes through a functional update, `explanation_complete` clears the
streaming flags and calls `playAccumulatedAudio`. -/
def onMessage (s : WsState) : WsMsg → WsState
  | .explanationStart =>
      { s with isPlaying := true, isStreamingAudio := true, chunks := [] }
  | .audioChunk b => { s with chunks := s.chunks ++ [b] }
  | .explanationComplete =>
      playAccumulatedAudio { s with isPlaying := false, isStreamingAudio := false }

/-- Process a list of incoming messages in order. -/
def runWs (s : WsState) (ms : List WsMsg) : WsState := ms.foldl onMessage s

end WS

/-- C1: evaluation of the code at a violating trace. From the loaded
state: play Main; press ask (which pauses Main); toggle Main back on
during the recording window (`togglePlayPause` is only disabled while
`isPlayingQA`, which is still false); release the ask button
(`sendQARequest` sets the Q&A flags but never pauses Main); the answer
arrives and `source.start()` runs unconditionally. Main and QA are then
simultaneously producing audible output, so the mutual-exclusion
invariant does not hold for all operation sequences. -/
theorem c1_mutual_exclusion_violated :
    RE.mainAudible (RE.run RE.initLoaded
      [RE.REvent.togglePlayPause, RE.REvent.pressAsk true,
       RE.REvent.togglePlayPause, RE.REvent.releaseAsk, RE.REvent.qaHttpOk]) = true
    ∧ RE.qaAudible (RE.run RE.initLoaded
      [RE.REvent.togglePlayPause, RE.REvent.pressAsk true,
       RE.REvent.togglePlayPause, RE.REvent.releaseAsk, RE.REvent.qaHttpOk]) = true := by
  decide

/-- C2: the Q&A completion handler is idempotent under duplicate
end-of-stream notifications: applying `qaEnded` twice equals applying it
once (the per-source `hasEnded` guard makes the duplicate a no-op), and a
single delivery schedules at most one settle timer. -/
theorem c2_qa_completion_idempotent (s : RE.RState) :
    RE.step (RE.step s RE.REvent.qaEnded) RE.REvent.qaEnded
        = RE.step s RE.REvent.qaEnded
    ∧ (RE.step s RE.REvent.qaEnded).pendingTimers ≤ s.pendingTimers + 1 := by
  obtain ⟨me, mp, mEnd, ipm, ir, itr, ipq, ipqr, srq, qp, he, pt⟩ := s
  constructor
  · cases he <;> cases qp <;> simp [RE.step, RE.qaEndedStep]
  · cases he <;> cases qp <;> simp [RE.step, RE.qaEndedStep]

/-- C3 counterexample: with Main loaded and *paused* (not playing),
press-and-release of the ask button records `shouldResumeAfterQA = true`
although Main was not actively playing immediately before the call
(`sendQARequest` sets the flag unconditionally), and after the answer
completes and the settle timer fires, Main is playing — the session that
was Paused before askQuestion ends up Playing, not Paused. -/
theorem c3_counterexample :
    RE.initLoaded.isPlayingMain = false ∧ RE.initLoaded.mainPaused = true
    ∧ (RE.run RE.initLoaded
        [RE.REvent.pressAsk true, RE.REvent.releaseAsk]).shouldResumeAfterQA = true
    ∧ (RE.run RE.initLoaded
        [RE.REvent.pressAsk true, RE.REvent.releaseAsk, RE.REvent.qaHttpOk,
         RE.REvent.qaEnded, RE.REvent.timerFire]).mainPaused = false := by decide

/-- C3 amended: `sendQARequest` records `shouldResumeAfterQA = true`
unconditionally, not "exactly when Main was playing"; consequently a
session that was Playing before askQuestion returns to Playing after the
answer completes, and a session that was Paused before askQuestion also
auto-resumes to Playing once the settle timer fires. -/
theorem c3_amended_resume (s : RE.RState) (h : s.isRecording = true) :
    (RE.step s RE.REvent.releaseAsk).shouldResumeAfterQA = true
    ∧ (RE.run RE.initLoaded
        [RE.REvent.togglePlayPause, RE.REvent.pressAsk true, RE.REvent.releaseAsk,
         RE.REvent.qaHttpOk, RE.REvent.qaEnded, RE.REvent.timerFire]).mainPaused = false
    ∧ (RE.run RE.initLoaded
        [RE.REvent.pressAsk true, RE.REvent.releaseAsk, RE.REvent.qaHttpOk,
         RE.REvent.qaEnded, RE.REvent.timerFire]).mainPaused = false := by
  refine ⟨?_, by decide, by decide⟩
  simp [RE.step, RE.releaseAskStep, h]

/-- Witness for `c3_amended_resume` at a concrete recording state. -/
theorem c3_amended_resume_witness :
    (RE.step { RE.initLoaded with isRecording := true }
        RE.REvent.releaseAsk).shouldResumeAfterQA = true
    ∧ (RE.run RE.initLoaded
        [RE.REvent.togglePlayPause, RE.REvent.pressAsk true, RE.REvent.releaseAsk,
         RE.REvent.qaHttpOk, RE.REvent.qaEnded, RE.REvent.timerFire]).mainPaused = false
    ∧ (RE.run RE.initLoaded
        [RE.REvent.pressAsk true, RE.REvent.releaseAsk, RE.REvent.qaHttpOk,
         RE.REvent.qaEnded, RE.REvent.timerFire]).mainPaused = false :=
  c3_amended_resume { RE.initLoaded with isRecording := true } rfl

/-- C4: on QA completion the handle is cleared (all QA flags dropped, the
source silenced) with Main's paused state untouched, and one settle timer
is scheduled; when a settle timer fires, Main can only have been resumed
if a timer was pending, the flag was set, the element existed and its last
observed state passed the `paused && !(!paused && !ended)` check (in
particular the wrapped `play` was not vetoed); and whenever the flag is
unset or Main is not paused, the timer leaves Main's paused state
unchanged. -/
theorem c4_conditional_resume_guard (s : RE.RState)
    (hQA : s.qaPlaying = true) (hG : s.hasEnded = false) :
    ((RE.step s RE.REvent.qaEnded).isPlayingQA = false
      ∧ (RE.step s RE.REvent.qaEnded).isPlayingQARef = false
      ∧ (RE.step s RE.REvent.qaEnded).qaPlaying = false
      ∧ (RE.step s RE.REvent.qaEnded).mainPaused = s.mainPaused
      ∧ (RE.step s RE.REvent.qaEnded).pendingTimers = s.pendingTimers + 1)
    ∧ (∀ t : RE.RState, t.mainPaused = true →
        (RE.step t RE.REvent.timerFire).mainPaused = false →
        t.pendingTimers ≠ 0 ∧ t.shouldResumeAfterQA = true ∧ t.mainExists = true
          ∧ t.isPlayingQARef = false ∧ t.isPlayingQA = false)
    ∧ (∀ t : RE.RState, t.shouldResumeAfterQA = false ∨ t.mainPaused = false →
        (RE.step t RE.REvent.timerFire).mainPaused = t.mainPaused) := by
  refine ⟨by simp [RE.step, RE.qaEndedStep, hQA, hG], ?_, ?_⟩
  · intro t hp hres
    obtain ⟨me, mp, mEnd, ipm, ir, itr, ipq, ipqr, srq, qp, he, pt⟩ := t
    subst hp
    cases pt with
    | zero => simp [RE.step, RE.timerFireStep] at hres
    | succ n =>
      cases srq <;> cases me <;> cases ipqr <;> cases ipq <;>
        simp_all [RE.step, RE.timerFireStep, RE.attemptPlayMain]
  · intro t ht
    obtain ⟨me, mp, mEnd, ipm, ir, itr, ipq, ipqr, srq, qp, he, pt⟩ := t
    cases pt with
    | zero => simp [RE.step, RE.timerFireStep]
    | succ n =>
      cases mp <;> cases me <;> cases srq <;> cases mEnd <;>
        cases ipqr <;> cases ipq <;>
          simp_all [RE.step, RE.timerFireStep, RE.attemptPlayMain]

/-- Witness for `c4_conditional_resume_guard` at a concrete state with an
active answer source. -/
theorem c4_conditional_resume_guard_witness :
    let s := RE.run RE.initLoaded
      [RE.REvent.togglePlayPause, RE.REvent.pressAsk true, RE.REvent.releaseAsk,
       RE.REvent.qaHttpOk]
    ((RE.step s RE.REvent.qaEnded).isPlayingQA = false
      ∧ (RE.step s RE.REvent.qaEnded).isPlayingQARef = false
      ∧ (RE.step s RE.REvent.qaEnded).qaPlaying = false
      ∧ (RE.step s RE.REvent.qaEnded).mainPaused = s.mainPaused
      ∧ (RE.step s RE.REvent.qaEnded).pendingTimers = s.pendingTimers + 1)
    ∧ (∀ t : RE.RState, t.mainPaused = true →
        (RE.step t RE.REvent.timerFire).mainPaused = false →
        t.pendingTimers ≠ 0 ∧ t.shouldResumeAfterQA = true ∧ t.mainExists = true
          ∧ t.isPlayingQARef = false ∧ t.isPlayingQA = false)
    ∧ (∀ t : RE.RState, t.shouldResumeAfterQA = false ∨ t.mainPaused = false →
        (RE.step t RE.REvent.timerFire).mainPaused = t.mainPaused) :=
  c4_conditional_resume_guard
    (RE.run RE.initLoaded
      [RE.REvent.togglePlayPause, RE.REvent.pressAsk true, RE.REvent.releaseAsk,
       RE.REvent.qaHttpOk])
    (by decide) (by decide)

/-- The all-zero four-sample capture is below the RMS threshold. -/
theorem rms_zero_buffer :
    Mic.rmsBelowThreshold (Mic.mergeFloat32 [[0, 0, 0, 0]]) = true := by
  norm_num [Mic.rmsBelowThreshold, Mic.mergeFloat32, Mic.sumSquares]

/-- A two-sample capture at amplitude 1/2 is above the RMS threshold. -/
theorem rms_half_buffer :
    Mic.rmsBelowThreshold (Mic.mergeFloat32 [[(1 : ℚ) / 2, 1 / 2]]) = false := by
  norm_num [Mic.rmsBelowThreshold, Mic.mergeFloat32, Mic.sumSquares,
    decide_eq_false_iff_not]

/-- C5 counterexample: when the VAD module is available (here with a trim
that returns the buffer unchanged), `stopRecording` performs no RMS check
at all: an all-zero capture, whose RMS energy 0 is below the 0.001
threshold, is still encoded and handed to the transport instead of being
discarded as silence. -/
theorem c5_counterexample :
    Mic.rmsBelowThreshold (Mic.mergeFloat32 [[0, 0, 0, 0]]) = true
    ∧ Mic.stopRecording (Mic.Vad.available id) [[0, 0, 0, 0]] 48000
        ≠ Mic.CaptureOutcome.discardedSilence :=
  ⟨rms_zero_buffer, by simp [Mic.stopRecording]⟩

/-- C5 amended: only when the VAD facility is unavailable or its load
fails does `stopRecording` run the whole-buffer RMS check; in that case
every capture below the 0.001 threshold is discarded with the silence
notice and no payload is produced. When the VAD module is available, no
RMS check occurs and a payload is always handed to the transport,
whatever the buffer's energy. -/
theorem c5_amended_silence_discard (bufs : List (List ℚ)) (rate : Nat)
    (h : Mic.rmsBelowThreshold (Mic.mergeFloat32 bufs) = true) :
    Mic.stopRecording Mic.Vad.unavailable bufs rate
        = Mic.CaptureOutcome.discardedSilence
    ∧ Mic.stopRecording Mic.Vad.loadFailed bufs rate
        = Mic.CaptureOutcome.discardedSilence
    ∧ ∀ trim, ∃ p,
        Mic.stopRecording (Mic.Vad.available trim) bufs rate
          = Mic.CaptureOutcome.sent p := by
  refine ⟨by simp [Mic.stopRecording, h], by simp [Mic.stopRecording, h], ?_⟩
  intro trim
  exact ⟨_, rfl⟩

/-- Witness for `c5_amended_silence_discard` on the all-zero capture. -/
theorem c5_amended_silence_discard_witness :
    Mic.stopRecording Mic.Vad.unavailable [[0, 0, 0, 0]] 48000
        = Mic.CaptureOutcome.discardedSilence
    ∧ Mic.stopRecording Mic.Vad.loadFailed [[0, 0, 0, 0]] 48000
        = Mic.CaptureOutcome.discardedSilence
    ∧ ∀ trim, ∃ p,
        Mic.stopRecording (Mic.Vad.available trim) [[0, 0, 0, 0]] 48000
          = Mic.CaptureOutcome.sent p :=
  c5_amended_silence_discard [[0, 0, 0, 0]] 48000 rms_zero_buffer

/-- C6: evaluation of the code at a violating trace: Main playing; ask
pauses Main and clears the flag; release sets the flag; the answer plays
and ends, scheduling the settle timer with the flag still set; the user
re-asks within the settle window — `startRecording`'s flag reset is
guarded by `isPlayingMain`, which is false because Main is paused, so the
stale resume is *not* cancelled — and the timer then fires and resumes
Main while the new question is still being recorded. -/
theorem c6_stale_resume_not_cancelled :
    (RE.run RE.initLoaded
      [RE.REvent.togglePlayPause, RE.REvent.pressAsk true, RE.REvent.releaseAsk,
       RE.REvent.qaHttpOk, RE.REvent.qaEnded, RE.REvent.pressAsk true,
       RE.REvent.timerFire]).isRecording = true
    ∧ RE.mainAudible (RE.run RE.initLoaded
      [RE.REvent.togglePlayPause, RE.REvent.pressAsk true, RE.REvent.releaseAsk,
       RE.REvent.qaHttpOk, RE.REvent.qaEnded, RE.REvent.pressAsk true,
       RE.REvent.timerFire]) = true := by decide

/-- C7: evaluation of the code at a failing trace: the `audioChunks`
store accumulates the chunks in receipt order, but `explanation_complete`
invokes the `playAccumulatedAudio` closure captured when `ws.onmessage`
was installed, which reads the connect-time `audioChunks` snapshot
(empty) and returns — no buffer is ever decoded and played. -/
theorem c7_streaming_plays_stale_snapshot :
    (WS.runWs (WS.connect [])
      [WS.WsMsg.explanationStart, WS.WsMsg.audioChunk [1, 2],
       WS.WsMsg.audioChunk [3], WS.WsMsg.explanationComplete]).chunks = [[1, 2], [3]]
    ∧ (WS.runWs (WS.connect [])
      [WS.WsMsg.explanationStart, WS.WsMsg.audioChunk [1, 2],
       WS.WsMsg.audioChunk [3], WS.WsMsg.explanationComplete]).played = none := by decide

/-- C8: for every non-silent capture, `stopRecording` concatenates the
buffered frames in arrival order (`mergeFloat32` is list flattening),
downsamples the (trimmed) buffer to the fixed 16 kHz target whatever the
device's native rate, and hands the transport a WAV whose declared sample
rate is 16000 and whose declared sample width is 16-bit PCM — in both the
VAD-trimmed path and the RMS-fallback path. -/
theorem c8_capture_postcondition (bufs : List (List ℚ)) (rate : Nat)
    (h : Mic.rmsBelowThreshold (Mic.mergeFloat32 bufs) = false) :
    Mic.mergeFloat32 bufs = bufs.flatten
    ∧ Mic.stopRecording Mic.Vad.unavailable bufs rate
        = Mic.CaptureOutcome.sent
            (Mic.encodeWavPCM16
              (Mic.downsampleFloat32 (Mic.mergeFloat32 bufs) rate 16000) 16000)
    ∧ (∀ trim, Mic.stopRecording (Mic.Vad.available trim) bufs rate
        = Mic.CaptureOutcome.sent
            (Mic.encodeWavPCM16
              (Mic.downsampleFloat32 (trim (Mic.mergeFloat32 bufs)) rate 16000) 16000))
    ∧ (Mic.encodeWavPCM16
        (Mic.downsampleFloat32 (Mic.mergeFloat32 bufs) rate 16000) 16000).sampleRate = 16000
    ∧ (Mic.encodeWavPCM16
        (Mic.downsampleFloat32 (Mic.mergeFloat32 bufs) rate 16000) 16000).bitsPerSample = 16 := by
  exact ⟨rfl, by simp [Mic.stopRecording, h], fun trim => rfl, rfl, rfl⟩

/-- Witness for `c8_capture_postcondition` on a loud two-sample capture at
a 48 kHz device rate. -/
theorem c8_capture_postcondition_witness :
    Mic.mergeFloat32 [[(1 : ℚ) / 2, 1 / 2]] = [[(1 : ℚ) / 2, 1 / 2]].flatten
    ∧ Mic.stopRecording Mic.Vad.unavailable [[(1 : ℚ) / 2, 1 / 2]] 48000
        = Mic.CaptureOutcome.sent
            (Mic.encodeWavPCM16
              (Mic.downsampleFloat32 (Mic.mergeFloat32 [[(1 : ℚ) / 2, 1 / 2]]) 48000 16000) 16000)
    ∧ (∀ trim, Mic.stopRecording (Mic.Vad.available trim) [[(1 : ℚ) / 2, 1 / 2]] 48000
        = Mic.CaptureOutcome.sent
            (Mic.encodeWavPCM16
              (Mic.downsampleFloat32 (trim (Mic.mergeFloat32 [[(1 : ℚ) / 2, 1 / 2]])) 48000 16000) 16000))
    ∧ (Mic.encodeWavPCM16
        (Mic.downsampleFloat32 (Mic.mergeFloat32 [[(1 : ℚ) / 2, 1 / 2]]) 48000 16000) 16000).sampleRate = 16000
    ∧ (Mic.encodeWavPCM16
        (Mic.downsampleFloat32 (Mic.mergeFloat32 [[(1 : ℚ) / 2, 1 / 2]]) 48000 16000) 16000).bitsPerSample = 16 :=
  c8_capture_postcondition [[(1 : ℚ) / 2, 1 / 2]] 48000 rms_half_buffer

/-- C9 counterexample: in `ReadingExplanation`, `startRecording` pauses
Main *before* requesting the microphone; when `getUserMedia` rejects, the
catch aborts the capture but never restores Main, so a session that was
Playing ends up Paused — a state transition does occur. -/
theorem c9_counterexample :
    let before := RE.run RE.initLoaded [RE.REvent.togglePlayPause]
    before.mainPaused = false
    ∧ (RE.step before (RE.REvent.pressAsk false)).mainPaused = true
    ∧ (RE.step before (RE.REvent.pressAsk false)).isRecording = false := by decide

/-- C9 amended: a rejected startCapture is non-fatal: in `MicSpeakingUI`
the catch only appends the "[microphone error]" warning and changes no
other field, and in `ReadingExplanation` the catch aborts the capture
(`isRecording` and `isTutorResponding` end up false) — but there Main,
paused unconditionally before the device request, is left Paused rather
than restored, so a Playing session transitions to Paused. -/
theorem c9_amended_device_unavailable (m : Mic.MicState) (s : RE.RState)
    (hc : m.connected = true) (hq : s.isPlayingQA = false) :
    ((Mic.micStartRecording m false).isRecording = m.isRecording
      ∧ (Mic.micStartRecording m false).buffers = m.buffers
      ∧ (Mic.micStartRecording m false).warnings = m.warnings ++ ["[microphone error]"])
    ∧ ((RE.step s (RE.REvent.pressAsk false)).isRecording = false
      ∧ (RE.step s (RE.REvent.pressAsk false)).isTutorResponding = false
      ∧ (s.mainExists = true → s.isPlayingMain = true →
          (RE.step s (RE.REvent.pressAsk false)).mainPaused = true)) := by
  refine ⟨by simp [Mic.micStartRecording, hc], ?_⟩
  obtain ⟨me, mp, mEnd, ipm, ir, itr, ipq, ipqr, srq, qp, he, pt⟩ := s
  subst hq
  cases me <;> cases ipm <;>
    simp_all [RE.step, RE.pressAskStep]

/-- Witness for `c9_amended_device_unavailable` at concrete states. -/
theorem c9_amended_device_unavailable_witness :
    let m : Mic.MicState :=
      { connected := true, isRecording := false, buffers := [], warnings := [] }
    let s := RE.run RE.initLoaded [RE.REvent.togglePlayPause]
    ((Mic.micStartRecording m false).isRecording = m.isRecording
      ∧ (Mic.micStartRecording m false).buffers = m.buffers
      ∧ (Mic.micStartRecording m false).warnings = m.warnings ++ ["[microphone error]"])
    ∧ ((RE.step s (RE.REvent.pressAsk false)).isRecording = false
      ∧ (RE.step s (RE.REvent.pressAsk false)).isTutorResponding = false
      ∧ (s.mainExists = true → s.isPlayingMain = true →
          (RE.step s (RE.REvent.pressAsk false)).mainPaused = true)) :=
  c9_amended_device_unavailable
    { connected := true, isRecording := false, buffers := [], warnings := [] }
    (RE.run RE.initLoaded [RE.REvent.togglePlayPause]) rfl (by decide)

/-- C10 counterexample: a decode failure of the answer audio while Main is
playing (reachable by toggling Main back on during the recording window)
leaves `shouldResumeAfterQA` set: the decode-error catch clears that flag
only inside its resume branch, so a failed Q&A round trip does not clear
all QA-in-progress flags. -/
theorem c10_counterexample :
    let t := RE.run RE.initLoaded
      [RE.REvent.togglePlayPause, RE.REvent.pressAsk true,
       RE.REvent.togglePlayPause, RE.REvent.releaseAsk, RE.REvent.qaDecodeErr]
    t.shouldResumeAfterQA = true ∧ t.isPlayingQA = false := by decide

/-- C10 amended: on an HTTP failure of the Q&A round trip, the catch of
`sendQARequest` clears `isTutorResponding`, `isPlayingQA`,
`isPlayingQARef` and `shouldResumeAfterQA` unconditionally and resumes
Main whenever it exists and is paused; on a decode failure, the catch of
`playQAAudioFromBase64` clears `isPlayingQA`/`isPlayingQARef` and resumes
Main and clears `shouldResumeAfterQA` only when the flag is set and Main
exists and is paused — otherwise the flag is left as it was. -/
theorem c10_amended_failure_recovery (s : RE.RState)
    (h : s.isTutorResponding = true) :
    ((RE.step s RE.REvent.qaHttpErr).isTutorResponding = false
      ∧ (RE.step s RE.REvent.qaHttpErr).isPlayingQA = false
      ∧ (RE.step s RE.REvent.qaHttpErr).isPlayingQARef = false
      ∧ (RE.step s RE.REvent.qaHttpErr).shouldResumeAfterQA = false
      ∧ (s.mainExists = true → s.mainPaused = true →
          (RE.step s RE.REvent.qaHttpErr).mainPaused = false))
    ∧ ((RE.step s RE.REvent.qaDecodeErr).isPlayingQA = false
      ∧ (RE.step s RE.REvent.qaDecodeErr).isPlayingQARef = false
      ∧ (s.shouldResumeAfterQA = true → s.mainExists = true → s.mainPaused = true →
          (RE.step s RE.REvent.qaDecodeErr).mainPaused = false
            ∧ (RE.step s RE.REvent.qaDecodeErr).shouldResumeAfterQA = false)) := by
  obtain ⟨me, mp, mEnd, ipm, ir, itr, ipq, ipqr, srq, qp, he, pt⟩ := s
  subst h
  cases me <;> cases mp <;> cases srq <;>
    simp_all [RE.step, RE.qaHttpErrStep, RE.qaDecodeErrStep, RE.attemptPlayMain]

/-- Witness for `c10_amended_failure_recovery` at a concrete in-flight
Q&A state. -/
theorem c10_amended_failure_recovery_witness :
    let s := RE.run RE.initLoaded
      [RE.REvent.togglePlayPause, RE.REvent.pressAsk true, RE.REvent.releaseAsk]
    ((RE.step s RE.REvent.qaHttpErr).isTutorResponding = false
      ∧ (RE.step s RE.REvent.qaHttpErr).isPlayingQA = false
      ∧ (RE.step s RE.REvent.qaHttpErr).isPlayingQARef = false
      ∧ (RE.step s RE.REvent.qaHttpErr).shouldResumeAfterQA = false
      ∧ (s.mainExists = true → s.mainPaused = true →
          (RE.step s RE.REvent.qaHttpErr).mainPaused = false))
    ∧ ((RE.step s RE.REvent.qaDecodeErr).isPlayingQA = false
      ∧ (RE.step s RE.REvent.qaDecodeErr).isPlayingQARef = false
      ∧ (s.shouldResumeAfterQA = true → s.mainExists = true → s.mainPaused = true →
          (RE.step s RE.REvent.qaDecodeErr).mainPaused = false
            ∧ (RE.step s RE.REvent.qaDecodeErr).shouldResumeAfterQA = false)) :=
  c10_amended_failure_recovery
    (RE.run RE.initLoaded
      [RE.REvent.togglePlayPause, RE.REvent.pressAsk true, RE.REvent.releaseAsk])
    (by decide)
